import Mathlib

/-!
Shallow embedding of the filtering / sorting / navigation engine of
`src/js/main.js` (rc-card-archive).  JavaScript numbers are modelled as
rationals (`Rat`); integer-valued fields (`volume`, `rewardAmount`,
`_index`) are modelled as `Int`/`Nat` and cast to `Rat` exactly where the
script does arithmetic on them.  A field that may be `undefined` is an
`Option`; a field that may be a string or an array of strings is a
`TagField`.  Fallible JS property accesses / array lookups return `Option`.
-/

namespace RcCardArchive

/-- A `book` or `gender` field: absent (`undefined`), a single string tag,
or an array of string tags, exactly the shapes `main.js` branches on with
`if (!x)` and `Array.isArray(x)`. -/
inductive TagField
  | absent
  | tag (s : String)
  | tags (l : List String)
  deriving DecidableEq

/-- One catalog record, with the fields `main.js` reads.  `_index` is the
original position assigned by `loadCards` (`card._index = index`). -/
structure Card where
  id : String
  cardName : String
  character : String
  volume : Option Int
  book : TagField
  gender : TagField
  rarity : Option String
  reward : Option String
  rewardAmount : Option Int
  _index : Nat
  deriving DecidableEq

/-- The sort keys reachable from the table headers / record fields. -/
inductive SortKey
  | cardName
  | character
  | volume
  | book
  | gender
  | rarity
  | reward
  deriving DecidableEq

/-- Sort direction (`currentSort.direction`). -/
inductive Direction
  | asc
  | desc
  deriving DecidableEq

/-- `currentSort`: a (key, direction) pair. -/
structure SortSpec where
  key : SortKey
  direction : Direction
  deriving DecidableEq

/-- The six filter inputs, all strings; `""` means the criterion is off. -/
structure Criteria where
  search : String
  vol : String
  book : String
  gender : String
  reward : String
  rarity : String
  deriving DecidableEq

/-! ## String helpers (JS `toLowerCase`, `trim`, `includes`, `<`) -/

/-- JS `s.toLowerCase()`, modelled characterwise. -/
def lowerStr (s : String) : String :=
  String.mk (s.data.map Char.toLower)

/-- JS `s.trim()`: strip whitespace from both ends. -/
def jsTrim (s : String) : String :=
  String.mk (((s.data.dropWhile Char.isWhitespace).reverse.dropWhile
    Char.isWhitespace).reverse)

/-- Whether the first list is an initial segment of the second. -/
def listStartsWith : List Char → List Char → Bool
  | [], _ => true
  | _ :: _, [] => false
  | a :: as, b :: bs => a == b && listStartsWith as bs

/-- Whether `pat` occurs as a contiguous run inside the second list. -/
def listOccursIn (pat : List Char) : List Char → Bool
  | [] => listStartsWith pat []
  | c :: s => listStartsWith pat (c :: s) || listOccursIn pat s

/-- JS `s.includes(pat)`. -/
def strIncludes (s pat : String) : Bool :=
  listOccursIn pat.data s.data

/-- JS `<` between two strings: lexicographic, characterwise. -/
def charListLt : List Char → List Char → Bool
  | [], [] => false
  | [], _ :: _ => true
  | _ :: _, [] => false
  | a :: as, b :: bs =>
      if a < b then true else if b < a then false else charListLt as bs

/-! ## Filter Engine (`matchesGender`, `matchesBook`, `getFilteredCards`) -/

/-- `matchesGender(card, selectedGender)` from `main.js`:
empty criterion matches everything; a falsy `gender` (absent or the empty
string) never matches; an array matches by membership; a single tag by
equality. -/
def matchesGender (card : Card) (selectedGender : String) : Bool :=
  if selectedGender = "" then true
  else
    match card.gender with
    | .absent => false
    | .tag g => if g = "" then false else g == selectedGender
    | .tags l => l.contains selectedGender

/-- `matchesBook(card, selectedBook)` from `main.js`, same shape as
`matchesGender`. -/
def matchesBook (card : Card) (selectedBook : String) : Bool :=
  if selectedBook = "" then true
  else
    match card.book with
    | .absent => false
    | .tag b => if b = "" then false else b == selectedBook
    | .tags l => l.contains selectedBook

/-- JS `String(card.volume)`: an absent value stringifies to
`"undefined"`, an integer to its decimal form. -/
def volString (v : Option Int) : String :=
  match v with
  | Option.none => "undefined"
  | some n => toString n

/-- The free-text criterion inside `getFilteredCards`: the input is
trimmed and lowercased; an empty result matches everything, otherwise the
term must occur in the lowercased `cardName` or `character`. -/
def searchPasses (searchRaw : String) (card : Card) : Bool :=
  if lowerStr (jsTrim searchRaw) = "" then true
  else
    strIncludes (lowerStr card.cardName) (lowerStr (jsTrim searchRaw))
      || strIncludes (lowerStr card.character) (lowerStr (jsTrim searchRaw))

/-- The predicate of the `cards.filter(...)` callback in
`getFilteredCards`: all active criteria ANDed. -/
def cardMatches (cr : Criteria) (card : Card) : Bool :=
  searchPasses cr.search card
    && (if cr.vol = "" then true else volString card.volume == cr.vol)
    && matchesBook card cr.book
    && matchesGender card cr.gender
    && (if cr.reward = "" then true else card.reward == some cr.reward)
    && (if cr.rarity = "" then true else card.rarity == some cr.rarity)

/-- `getFilteredCards()` from `main.js`, with the record collection and
the criteria passed explicitly. -/
def getFilteredCards (cr : Criteria) (cards : List Card) : List Card :=
  cards.filter (fun card => cardMatches cr card)

/-! ## Sort Engine (`sortCards` and its helpers) -/

/-- `rarityOrder[r] ?? 999`: the rank table inside `sortCards`, with the
nullish fallback folded in (an absent or unknown rarity gets 999). -/
def rarityOrderVal (r : Option String) : Rat :=
  match r with
  | Option.none => 999
  | some s =>
      if s = "Common" then 0
      else if s = "Uncommon" then 1
      else if s = "Rare" then 2
      else if s = "Epic" then 3
      else if s = "Legendary" then 4
      else 999

/-- `genderRank(card)` inside `sortCards`: arrays first (rank 1), then the
named tags, everything else (absent or unknown) 99. -/
def genderRank (card : Card) : Rat :=
  match card.gender with
  | .tags _ => 1
  | .tag g =>
      if g = "Male" then 0
      else if g = "Female" then 2
      else if g = "Non-binary" then 3
      else if g = "Inanimate" then 4
      else 99
  | .absent => 99

/-- `rewardTypeOrder[r] ?? 999`: Cups 0, Diamonds 1, everything else (or
absent) 999. -/
def rewardTypeOrderVal (r : Option String) : Rat :=
  match r with
  | Option.none => 999
  | some s =>
      if s = "Cups" then 0
      else if s = "Diamonds" then 1
      else 999

/-- `card.rewardAmount ?? 0` as a JS number. -/
def amountVal (card : Card) : Rat :=
  match card.rewardAmount with
  | some n => (n : Rat)
  | Option.none => 0

/-- `rewardTier(card)` inside `sortCards`: 9999 when `reward` is falsy or
unknown, the amount for Cups, the amount divided by 10 for Diamonds. -/
def rewardTier (card : Card) : Rat :=
  match card.reward with
  | Option.none => 9999
  | some r =>
      if r = "Cups" then amountVal card
      else if r = "Diamonds" then amountVal card / 10
      else 9999

/-- `rewardDescScore(card)` inside `sortCards`: Diamonds score twice their
amount, Cups their amount, everything else -1. -/
def rewardDescScore (card : Card) : Rat :=
  match card.reward with
  | Option.none => -1
  | some r =>
      if r = "Diamonds" then amountVal card * 2
      else if r = "Cups" then amountVal card
      else -1

/-- `factor = direction === "asc" ? 1 : -1`. -/
def factorOf (d : Direction) : Rat :=
  match d with
  | .asc => 1
  | .desc => -1

/-- `card.volume ?? 9999` as a JS number, used by the rarity and reward
comparators. -/
def volQ (card : Card) : Rat :=
  ((card.volume.getD 9999 : Int) : Rat)

/-- The `key === "rarity"` branch of the comparator in `sortCards`:
rarity rank with the direction factor, reward tier (direction reversing
only this level), volume always ascending, reward type Cups before
Diamonds, original index. -/
def rarityCompare (dir : Direction) (a b : Card) : Rat :=
  if rarityOrderVal a.rarity ≠ rarityOrderVal b.rarity then
    (rarityOrderVal a.rarity - rarityOrderVal b.rarity) * factorOf dir
  else if rewardTier a ≠ rewardTier b then
    (if dir = .asc then rewardTier a - rewardTier b else rewardTier b - rewardTier a)
  else if volQ a ≠ volQ b then volQ a - volQ b
  else if rewardTypeOrderVal a.reward ≠ rewardTypeOrderVal b.reward then
    rewardTypeOrderVal a.reward - rewardTypeOrderVal b.reward
  else (a._index : Rat) - (b._index : Rat)

/-- The `key === "gender"` branch of the comparator in `sortCards`. -/
def genderCompare (dir : Direction) (a b : Card) : Rat :=
  if genderRank a ≠ genderRank b then (genderRank a - genderRank b) * factorOf dir
  else (a._index : Rat) - (b._index : Rat)

/-- The `key === "reward"` branch of the comparator in `sortCards`:
ascending orders by type, amount, volume, index; descending by
`rewardDescScore` (bigger first), volume, index. -/
def rewardCompare (dir : Direction) (a b : Card) : Rat :=
  match dir with
  | .asc =>
      if rewardTypeOrderVal a.reward ≠ rewardTypeOrderVal b.reward then
        rewardTypeOrderVal a.reward - rewardTypeOrderVal b.reward
      else if amountVal a ≠ amountVal b then amountVal a - amountVal b
      else if volQ a ≠ volQ b then volQ a - volQ b
      else (a._index : Rat) - (b._index : Rat)
  | .desc =>
      if rewardDescScore a ≠ rewardDescScore b then
        rewardDescScore b - rewardDescScore a
      else if volQ a ≠ volQ b then volQ a - volQ b
      else (a._index : Rat) - (b._index : Rat)

/-- The value `a[key]` can take in the generic comparator branch:
`undefined`, a number, a string, or an array of strings. -/
inductive RawVal
  | undefined
  | num (q : Rat)
  | str (s : String)
  | arr (l : List String)
  deriving DecidableEq

/-- A `book`/`gender` field as the raw JS value `a[key]`. -/
def tagFieldVal : TagField → RawVal
  | .absent => .undefined
  | .tag s => .str s
  | .tags l => .arr l

/-- The raw JS value `a[key]` for each sort key. -/
def getField (card : Card) : SortKey → RawVal
  | .cardName => .str card.cardName
  | .character => .str card.character
  | .volume =>
      match card.volume with
      | some n => .num (n : Rat)
      | Option.none => .undefined
  | .book => tagFieldVal card.book
  | .gender => tagFieldVal card.gender
  | .rarity =>
      match card.rarity with
      | some s => .str s
      | Option.none => .undefined
  | .reward =>
      match card.reward with
      | some s => .str s
      | Option.none => .undefined

/-- `if (Array.isArray(va)) va = va[0]`: an array is replaced by its first
element (`undefined` when the array is empty). -/
def scalarize : RawVal → RawVal
  | .arr l =>
      match l.head? with
      | some s => .str s
      | Option.none => .undefined
  | v => v

/-- `if (typeof va === "string") va = va.toLowerCase()`. -/
def lowerVal : RawVal → RawVal
  | .str s => .str (lowerStr s)
  | v => v

/-- The value the generic comparator actually compares for a key:
`a[key]`, arrays collapsed to their first element, strings lowercased. -/
def jsKeyVal (card : Card) (k : SortKey) : RawVal :=
  lowerVal (scalarize (getField card k))

/-- JS `<` on the values that can reach the generic comparison: numbers
numerically, strings lexicographically; any comparison involving
`undefined` is false (NaN semantics).  A cross-type number/string
comparison cannot arise here because a given key always yields one scalar
type or `undefined`. -/
def jsLt : RawVal → RawVal → Bool
  | .num x, .num y => decide (x < y)
  | .str s, .str t => charListLt s.data t.data
  | _, _ => false

/-- The default (generic-key) branch of the comparator in `sortCards`. -/
def genericCompare (dir : Direction) (k : SortKey) (a b : Card) : Rat :=
  if jsLt (jsKeyVal a k) (jsKeyVal b k) then -1 * factorOf dir
  else if jsLt (jsKeyVal b k) (jsKeyVal a k) then 1 * factorOf dir
  else (a._index : Rat) - (b._index : Rat)

/-- The full comparator passed to `Array.prototype.sort` in `sortCards`:
string-keyed dispatch to the three special branches, generic otherwise. -/
def cmpCards (spec : SortSpec) (a b : Card) : Rat :=
  match spec.key with
  | .rarity => rarityCompare spec.direction a b
  | .gender => genderCompare spec.direction a b
  | .reward => rewardCompare spec.direction a b
  | k => genericCompare spec.direction k a b

/-- Stable insertion of one element into an already sorted list: the new
element (originally earlier) goes before the first element it does not
compare strictly greater than. -/
def insertSorted (cmp : Card → Card → Rat) (a : Card) : List Card → List Card
  | [] => [a]
  | b :: bs => if cmp a b ≤ 0 then a :: b :: bs else b :: insertSorted cmp a bs

/-- Stable sort by a JS-style comparator (negative means "first argument
first"), modelling the ES2019+ stable `Array.prototype.sort`. -/
def sortByCmp (cmp : Card → Card → Rat) : List Card → List Card
  | [] => []
  | a :: as => insertSorted cmp a (sortByCmp cmp as)

/-- `sortCards(list)` from `main.js`: a freshly built sorted copy
(`[...list].sort(...)`) of the input, under the current sort spec. -/
def sortCards (spec : SortSpec) (list : List Card) : List Card :=
  sortByCmp (cmpCards spec) list

/-! ## Navigation Cursor (`showPrevCard`, `showNextCard`, affordances) -/

/-- The navigation state: `currentList` and `currentIndex` from
`main.js` (`currentIndex` is `-1` when no detail view is open). -/
structure NavState where
  currentList : List Card
  currentIndex : Int
  deriving DecidableEq

/-- JS `currentList[i]`: `undefined` off either end. -/
def jsIndexGet (l : List Card) (i : Int) : Option Card :=
  if i < 0 then Option.none else l.get? i.toNat

/-- `showPrevCard()`: bail out when `currentIndex <= 0`; otherwise
decrement the index and display the card found there (the second
component is the record handed to `showCardDetails`, `none` when no
display happens). -/
def showPrevCard (st : NavState) : NavState × Option Card :=
  if st.currentIndex ≤ 0 then (st, Option.none)
  else
    let i := st.currentIndex - 1
    let st2 : NavState := { st with currentIndex := i }
    match jsIndexGet st.currentList i with
    | some card => (st2, some card)
    | Option.none => (st2, Option.none)

/-- `showNextCard()`: bail out when `currentIndex < 0` or it is already at
the last position; otherwise increment and display. -/
def showNextCard (st : NavState) : NavState × Option Card :=
  if st.currentIndex < 0 then (st, Option.none)
  else if (st.currentList.length : Int) - 1 ≤ st.currentIndex then (st, Option.none)
  else
    let i := st.currentIndex + 1
    let st2 : NavState := { st with currentIndex := i }
    match jsIndexGet st.currentList i with
    | some card => (st2, some card)
    | Option.none => (st2, Option.none)

/-- The previous-affordance flag from `showCardDetails`: the arrow is
shown exactly when `currentIndex > 0`. -/
def prevEnabled (st : NavState) : Bool :=
  decide (0 < st.currentIndex)

/-- The next-affordance flag from `showCardDetails`: the arrow is shown
exactly when `currentIndex >= 0 && currentIndex < currentList.length - 1`. -/
def nextEnabled (st : NavState) : Bool :=
  decide (0 ≤ st.currentIndex)
    && decide (st.currentIndex < (st.currentList.length : Int) - 1)

/-! ## Application state and `render` -/

/-- The module-level mutable state of `main.js` that the engine touches. -/
structure AppState where
  cards : List Card
  currentSort : SortSpec
  currentList : List Card
  currentIndex : Int
  deriving DecidableEq

/-- The engine part of `render()`: filter, sort, and replace
`currentList` wholesale; nothing else of the state changes. -/
def render (cr : Criteria) (st : AppState) : AppState :=
  { st with currentList := sortCards st.currentSort (getFilteredCards cr st.cards) }

/-! ## Comparison chains used to state the spec's ordering claims -/

/-- Three-way comparison of two rationals. -/
def cmpR (x y : Rat) : Ordering :=
  if x < y then Ordering.lt else if x = y then Ordering.eq else Ordering.gt

/-- The sign of a comparator value, as an `Ordering`. -/
def ratSign (x : Rat) : Ordering :=
  cmpR x 0

/-- Reversal of a three-way comparison. -/
def oswap : Ordering → Ordering
  | .lt => .gt
  | .eq => .eq
  | .gt => .lt

/-- Lexicographic chaining: the second level decides only on a tie. -/
def othen : Ordering → Ordering → Ordering
  | .eq, o => o
  | o, _ => o

/-- Apply the sort direction to one comparison level. -/
def dirOrd (d : Direction) (o : Ordering) : Ordering :=
  match d with
  | .asc => o
  | .desc => oswap o

/-- Three-way JS comparison of two raw values (`<` probed both ways). -/
def jsCmp (x y : RawVal) : Ordering :=
  if jsLt x y then Ordering.lt else if jsLt y x then Ordering.gt else Ordering.eq

/-- The five-level rarity ordering exactly as claim C1 words it, including
its level 3: volume ascending with an ABSENT volume after ALL present
volumes (an `Option` comparison, not the code's 9999 sentinel). -/
def volAbsentLast (a b : Card) : Ordering :=
  match a.volume, b.volume with
  | Option.none, Option.none => Ordering.eq
  | Option.none, some _ => Ordering.gt
  | some _, Option.none => Ordering.lt
  | some x, some y => cmpR (x : Rat) (y : Rat)

/-- The rarity ordering as claim C1 states it (level 3 places an absent
volume after every present volume). -/
def rarityClaimOrd (dir : Direction) (a b : Card) : Ordering :=
  othen (dirOrd dir (cmpR (rarityOrderVal a.rarity) (rarityOrderVal b.rarity)))
    (othen (dirOrd dir (cmpR (rewardTier a) (rewardTier b)))
      (othen (volAbsentLast a b)
        (othen (cmpR (rewardTypeOrderVal a.reward) (rewardTypeOrderVal b.reward))
          (cmpR (a._index : Rat) (b._index : Rat)))))

/-- The rarity ordering as amended: level 3 compares volumes with the
code's 9999 fallback for an absent volume. -/
def rarityAmendedOrd (dir : Direction) (a b : Card) : Ordering :=
  othen (dirOrd dir (cmpR (rarityOrderVal a.rarity) (rarityOrderVal b.rarity)))
    (othen (dirOrd dir (cmpR (rewardTier a) (rewardTier b)))
      (othen (cmpR (volQ a) (volQ b))
        (othen (cmpR (rewardTypeOrderVal a.reward) (rewardTypeOrderVal b.reward))
          (cmpR (a._index : Rat) (b._index : Rat)))))

/-- The magnitude score exactly as claim C2 words it: `2 × rewardAmount`
for Diamonds, `rewardAmount` for Cups (only those two reward types are
covered by the claim). -/
def claimRewardScore (card : Card) : Rat :=
  match card.reward with
  | some r => if r = "Diamonds" then 2 * amountVal card else amountVal card
  | Option.none => amountVal card

/-- The descending reward ordering as claim C2 states it: score
descending, then volume ascending, then original position. -/
def rewardDescClaimOrd (a b : Card) : Ordering :=
  othen (oswap (cmpR (claimRewardScore a) (claimRewardScore b)))
    (othen (cmpR (volQ a) (volQ b))
      (cmpR (a._index : Rat) (b._index : Rat)))

/-- The generic-key ordering as claim C3 states it: the field values
compared directly (first element of a tag-set, strings case-insensitive),
direction applied, then original position ascending. -/
def genericClaimOrd (dir : Direction) (k : SortKey) (a b : Card) : Ordering :=
  othen (dirOrd dir (jsCmp (jsKeyVal a k) (jsKeyVal b k)))
    (cmpR (a._index : Rat) (b._index : Rat))

/-- What the gender key actually does: `genderRank` compared with the
direction applied, then original position ascending. -/
def genderRankOrd (dir : Direction) (a b : Card) : Ordering :=
  othen (dirOrd dir (cmpR (genderRank a) (genderRank b)))
    (cmpR (a._index : Rat) (b._index : Rat))

/-- Claim C6's contains-semantics for a single-or-set tag field: equality
for a single tag, membership for a set, never for an absent field. -/
def tagFieldHas (t : TagField) (v : String) : Bool :=
  match t with
  | .absent => false
  | .tag s => s == v
  | .tags l => l.contains v

/-- Claim C5's search criterion: the (trimmed) term occurs
case-insensitively as a substring of the field. -/
def ciOccurs (term field : String) : Bool :=
  strIncludes (lowerStr field) (lowerStr term)

/-! ## Concrete records used by the examples, witnesses and
counterexamples -/

/-- Record A of the spec's rarity example: Epic, Cups, amount 8, volume 3. -/
def exA : Card :=
  ⟨"a", "A", "ChA", some 3, .absent, .absent, some "Epic", some "Cups", some 8, 0⟩

/-- Record B of the spec's rarity example: Epic, Diamonds, amount 20,
volume 1. -/
def exB : Card :=
  ⟨"b", "B", "ChB", some 1, .absent, .absent, some "Epic", some "Diamonds", some 20, 1⟩

/-- Epic Cups 2 (tier 2) with an ABSENT volume. -/
def exVolNone : Card :=
  ⟨"vn", "VN", "ChVN", Option.none, .absent, .absent, some "Epic", some "Cups", some 2, 0⟩

/-- Epic Diamonds 20 (tier 2) with the PRESENT volume 10000. -/
def exVol10000 : Card :=
  ⟨"vp", "VP", "ChVP", some 10000, .absent, .absent, some "Epic", some "Diamonds", some 20, 1⟩

/-- A Diamonds reward of amount 1 (descending reward score 2). -/
def exD1 : Card :=
  ⟨"d1", "D1", "ChD1", some 1, .absent, .absent, Option.none, some "Diamonds", some 1, 0⟩

/-- A Cups reward of amount 12 (descending reward score 12). -/
def exC12 : Card :=
  ⟨"c12", "C12", "ChC12", some 2, .absent, .absent, Option.none, some "Cups", some 12, 1⟩

/-- The spec's reward-descending example record Diamonds/20. -/
def exD20 : Card :=
  ⟨"d20", "D20", "ChD20", some 1, .absent, .absent, Option.none, some "Diamonds", some 20, 0⟩

/-- A record with gender Female at original position 0. -/
def exF : Card :=
  ⟨"f", "F", "ChF", Option.none, .absent, .tag "Female", Option.none, Option.none, Option.none, 0⟩

/-- A record with gender Male at original position 1. -/
def exM : Card :=
  ⟨"m", "M", "ChM", Option.none, .absent, .tag "Male", Option.none, Option.none, Option.none, 1⟩

/-- The spec's search example: `character` is "Luna". -/
def exLuna : Card :=
  ⟨"l", "Moonlight", "Luna", Option.none, .absent, .absent, Option.none, Option.none, Option.none, 0⟩

/-- A record containing "luna" in neither `cardName` nor `character`. -/
def exSol : Card :=
  ⟨"s", "Sun", "Sol", Option.none, .absent, .absent, Option.none, Option.none, Option.none, 1⟩

/-- The spec's set-valued book example: `book = ["A","B"]`. -/
def exAB : Card :=
  ⟨"ab", "AB", "ChAB", Option.none, .tags ["A", "B"], .absent, Option.none, Option.none, Option.none, 0⟩

/-- A three-element view for the navigation examples. -/
def ex3 : List Card := [exF, exM, exLuna]

attribute [local semireducible] Rat.sub Rat.mul Rat.add Rat.inv Rat.ofScientific

/-! ## Ordering algebra -/

theorem cmpR_self (x : Rat) : cmpR x x = Ordering.eq := by
  simp [cmpR]

theorem cmpR_eq_iff (x y : Rat) : cmpR x y = Ordering.eq ↔ x = y := by
  unfold cmpR
  rcases lt_trichotomy x y with h | h | h
  · simp [h, h.ne]
  · subst h
    simp [lt_irrefl]
  · simp [not_lt.mpr h.le, h.ne']

theorem cmpR_swap (x y : Rat) : cmpR y x = oswap (cmpR x y) := by
  unfold cmpR
  rcases lt_trichotomy x y with h | h | h
  · simp [h, not_lt.mpr h.le, h.ne', oswap]
  · subst h
    simp [lt_irrefl, oswap]
  · simp [h, not_lt.mpr h.le, h.ne', oswap]

theorem ratSign_sub (x y : Rat) : ratSign (x - y) = cmpR x y := by
  unfold ratSign cmpR
  simp only [sub_neg, sub_eq_zero]

theorem dirOrd_eq (d : Direction) : dirOrd d Ordering.eq = Ordering.eq := by
  cases d <;> rfl

theorem dirOrd_eq_iff (d : Direction) (o : Ordering) :
    dirOrd d o = Ordering.eq ↔ o = Ordering.eq := by
  cases d <;> cases o <;> simp [dirOrd, oswap]

theorem othen_eq (p : Ordering) : othen Ordering.eq p = p := rfl

theorem othen_ne (o p : Ordering) (h : o ≠ Ordering.eq) : othen o p = o := by
  cases o
  · rfl
  · exact absurd rfl h
  · rfl

theorem ratSign_sub_mul (d : Direction) (x y : Rat) :
    ratSign ((x - y) * factorOf d) = dirOrd d (cmpR x y) := by
  cases d
  · rw [show factorOf Direction.asc = 1 from rfl, mul_one]
    exact ratSign_sub x y
  · have h : (x - y) * factorOf Direction.desc = y - x := by
      show (x - y) * (-1) = y - x
      ring
    rw [h, ratSign_sub, cmpR_swap]
    rfl

theorem ratSign_dirsub (d : Direction) (x y : Rat) :
    ratSign (if d = Direction.asc then x - y else y - x) = dirOrd d (cmpR x y) := by
  cases d
  · rw [if_pos rfl, ratSign_sub]
    rfl
  · rw [if_neg (by simp), ratSign_sub, cmpR_swap]
    rfl

/-! ## Sign characterisations of the comparator branches -/

theorem raritySign (dir : Direction) (a b : Card) :
    ratSign (rarityCompare dir a b) = rarityAmendedOrd dir a b := by
  unfold rarityCompare rarityAmendedOrd
  by_cases h1 : rarityOrderVal a.rarity = rarityOrderVal b.rarity
  · rw [if_neg (not_not_intro h1), (cmpR_eq_iff _ _).mpr h1, dirOrd_eq, othen_eq]
    by_cases h2 : rewardTier a = rewardTier b
    · rw [if_neg (not_not_intro h2), (cmpR_eq_iff _ _).mpr h2, dirOrd_eq, othen_eq]
      by_cases h3 : volQ a = volQ b
      · rw [if_neg (not_not_intro h3), (cmpR_eq_iff _ _).mpr h3, othen_eq]
        by_cases h4 : rewardTypeOrderVal a.reward = rewardTypeOrderVal b.reward
        · rw [if_neg (not_not_intro h4), (cmpR_eq_iff _ _).mpr h4, othen_eq,
            ratSign_sub]
        · rw [if_pos h4, ratSign_sub,
            othen_ne _ _ (fun he => h4 ((cmpR_eq_iff _ _).mp he))]
      · rw [if_pos h3, ratSign_sub,
          othen_ne _ _ (fun he => h3 ((cmpR_eq_iff _ _).mp he))]
    · rw [if_pos h2, ratSign_dirsub,
        othen_ne _ _ (fun he => h2 ((cmpR_eq_iff _ _).mp ((dirOrd_eq_iff _ _).mp he)))]
  · rw [if_pos h1, ratSign_sub_mul,
      othen_ne _ _ (fun he => h1 ((cmpR_eq_iff _ _).mp ((dirOrd_eq_iff _ _).mp he)))]

theorem genderSign (dir : Direction) (a b : Card) :
    ratSign (genderCompare dir a b) = genderRankOrd dir a b := by
  unfold genderCompare genderRankOrd
  by_cases h1 : genderRank a = genderRank b
  · rw [if_neg (not_not_intro h1), (cmpR_eq_iff _ _).mpr h1, dirOrd_eq, othen_eq,
      ratSign_sub]
  · rw [if_pos h1, ratSign_sub_mul,
      othen_ne _ _ (fun he => h1 ((cmpR_eq_iff _ _).mp ((dirOrd_eq_iff _ _).mp he)))]

theorem genericSign (dir : Direction) (k : SortKey) (a b : Card) :
    ratSign (genericCompare dir k a b) = genericClaimOrd dir k a b := by
  unfold genericCompare genericClaimOrd jsCmp
  by_cases h1 : jsLt (jsKeyVal a k) (jsKeyVal b k) = true
  · rw [if_pos h1, if_pos h1]
    cases dir
    · rw [othen_ne _ _ (by decide)]
      decide
    · rw [othen_ne _ _ (by decide)]
      decide
  · rw [if_neg h1, if_neg h1]
    by_cases h2 : jsLt (jsKeyVal b k) (jsKeyVal a k) = true
    · rw [if_pos h2, if_pos h2]
      cases dir
      · rw [othen_ne _ _ (by decide)]
        decide
      · rw [othen_ne _ _ (by decide)]
        decide
    · rw [if_neg h2, if_neg h2, dirOrd_eq, othen_eq, ratSign_sub]

theorem oswap_eq_iff (o : Ordering) : oswap o = Ordering.eq ↔ o = Ordering.eq := by
  cases o <;> simp [oswap]

theorem rewardDescScore_claim (c : Card)
    (h : c.reward = some "Cups" ∨ c.reward = some "Diamonds") :
    rewardDescScore c = claimRewardScore c := by
  rcases h with h | h <;>
    simp [rewardDescScore, claimRewardScore, h, mul_comm]

theorem rewardDescSign (a b : Card)
    (ha : a.reward = some "Cups" ∨ a.reward = some "Diamonds")
    (hb : b.reward = some "Cups" ∨ b.reward = some "Diamonds") :
    ratSign (rewardCompare Direction.desc a b) = rewardDescClaimOrd a b := by
  unfold rewardCompare rewardDescClaimOrd
  rw [rewardDescScore_claim a ha, rewardDescScore_claim b hb]
  by_cases h1 : claimRewardScore a = claimRewardScore b
  · rw [if_neg (not_not_intro h1), (cmpR_eq_iff _ _).mpr h1]
    rw [show oswap Ordering.eq = Ordering.eq from rfl, othen_eq]
    by_cases h2 : volQ a = volQ b
    · rw [if_neg (not_not_intro h2), (cmpR_eq_iff _ _).mpr h2, othen_eq, ratSign_sub]
    · rw [if_pos h2, ratSign_sub,
        othen_ne _ _ (fun he => h2 ((cmpR_eq_iff _ _).mp he))]
  · rw [if_pos h1, ratSign_sub, cmpR_swap,
      othen_ne _ _ (fun he => h1 ((cmpR_eq_iff _ _).mp ((oswap_eq_iff _).mp he)))]

/-! ## Sorting is a permutation -/

theorem insertSorted_perm (cmp : Card → Card → Rat) (a : Card) (l : List Card) :
    (insertSorted cmp a l).Perm (a :: l) := by
  induction l with
  | nil => exact List.Perm.refl _
  | cons b bs ih =>
      unfold insertSorted
      by_cases h : cmp a b ≤ 0
      · rw [if_pos h]
      · rw [if_neg h]
        exact (ih.cons b).trans (List.Perm.swap a b bs)

theorem sortByCmp_perm (cmp : Card → Card → Rat) (l : List Card) :
    (sortByCmp cmp l).Perm l := by
  induction l with
  | nil => exact List.Perm.refl _
  | cons a as ih =>
      show (insertSorted cmp a (sortByCmp cmp as)).Perm (a :: as)
      exact (insertSorted_perm cmp a (sortByCmp cmp as)).trans (ih.cons a)

/-! ## String lemmas for the search criterion -/

theorem lowerStr_empty_iff (s : String) : lowerStr s = "" ↔ s = "" := by
  unfold lowerStr
  constructor
  · intro h
    have hd : s.data.map Char.toLower = [] := congrArg String.data h
    have hnil : s.data = [] := by
      simpa using hd
    exact String.ext hnil
  · intro h
    subst h
    rfl

theorem jsTrim_all_ws (s : String) (h : ∀ c ∈ s.data, c.isWhitespace = true) :
    jsTrim s = "" := by
  unfold jsTrim
  have h1 : s.data.dropWhile Char.isWhitespace = [] := by
    rw [List.dropWhile_eq_nil_iff]
    intro x hx
    exact h x hx
  rw [h1]
  rfl

/-! ## Navigation lemmas -/

theorem showPrev_noop (st : NavState) (h : st.currentIndex ≤ 0) :
    showPrevCard st = (st, Option.none) := by
  unfold showPrevCard
  rw [if_pos h]

theorem showNext_noop_neg (st : NavState) (h : st.currentIndex < 0) :
    showNextCard st = (st, Option.none) := by
  unfold showNextCard
  rw [if_pos h]

theorem showNext_noop_last (st : NavState)
    (h : (st.currentList.length : Int) - 1 ≤ st.currentIndex) :
    showNextCard st = (st, Option.none) := by
  unfold showNextCard
  by_cases h0 : st.currentIndex < 0
  · rw [if_pos h0]
  · rw [if_neg h0, if_pos h]

theorem showPrev_fst_move (st : NavState) (h : ¬ st.currentIndex ≤ 0) :
    (showPrevCard st).1 = { st with currentIndex := st.currentIndex - 1 } := by
  simp only [showPrevCard]
  rw [if_neg h]
  split <;> rfl

theorem showNext_fst_move (st : NavState) (h0 : ¬ st.currentIndex < 0)
    (h1 : ¬ (st.currentList.length : Int) - 1 ≤ st.currentIndex) :
    (showNextCard st).1 = { st with currentIndex := st.currentIndex + 1 } := by
  simp only [showNextCard]
  rw [if_neg h0, if_neg h1]
  split <;> rfl

/-! ## Claim theorems -/

/-- Claim C1, amended: for the rarity sort key, the comparator orders any
two records lexicographically by (1) rarity rank with the direction
factor, (2) reward tier (tier sentinel 9999 when no reward), reversed
only at this level for descending, (3) volume ascending regardless of
direction with an absent volume treated as the sentinel 9999, (4) reward
type Cups before Diamonds in fixed order, (5) original position
ascending; and on the spec's example records A (Epic, Cups 8, volume 3)
and B (Epic, Diamonds 20, volume 1), ascending places B before A and
descending places A before B. -/
theorem spec_C1 :
    (∀ (dir : Direction) (a b : Card),
        ratSign (cmpCards ⟨SortKey.rarity, dir⟩ a b) = rarityAmendedOrd dir a b)
      ∧ sortCards ⟨SortKey.rarity, Direction.asc⟩ [exA, exB] = [exB, exA]
      ∧ sortCards ⟨SortKey.rarity, Direction.desc⟩ [exA, exB] = [exA, exB] :=
  ⟨fun dir a b => raritySign dir a b, by decide, by decide⟩

/-- Claim C1 counterexample: the claim's level 3 places an absent volume
after ALL present volumes, but the code uses the sentinel 9999, so for two
Epic records of equal tier 2 where one has no volume and the other has
volume 10000, the code sorts the absent-volume record FIRST while the
claim's ordering puts it after. -/
theorem spec_C1_counterexample :
    ratSign (cmpCards ⟨SortKey.rarity, Direction.asc⟩ exVolNone exVol10000) = Ordering.lt
      ∧ rarityClaimOrd Direction.asc exVolNone exVol10000 = Ordering.gt
      ∧ sortCards ⟨SortKey.rarity, Direction.asc⟩ [exVolNone, exVol10000]
          = [exVolNone, exVol10000] :=
  ⟨by decide, by decide, by decide⟩

/-- Claim C2, amended: for the reward key descending, on records whose
reward is Cups or Diamonds the comparator orders by the single magnitude
score (2 × amount for Diamonds, amount for Cups) descending, then volume
ascending, then original position ascending; consequently a Diamonds
record precedes a Cups record whenever twice the Diamonds amount exceeds
the Cups amount (not for every pair of non-negative amounts). -/
theorem spec_C2 :
    (∀ a b : Card,
        a.reward = some "Cups" ∨ a.reward = some "Diamonds" →
        b.reward = some "Cups" ∨ b.reward = some "Diamonds" →
        ratSign (cmpCards ⟨SortKey.reward, Direction.desc⟩ a b)
          = rewardDescClaimOrd a b)
      ∧ (∀ (a b : Card) (d c : Int),
          a.reward = some "Diamonds" → a.rewardAmount = some d →
          b.reward = some "Cups" → b.rewardAmount = some c →
          c < 2 * d →
          cmpCards ⟨SortKey.reward, Direction.desc⟩ a b < 0
            ∧ sortCards ⟨SortKey.reward, Direction.desc⟩ [b, a] = [a, b]) := by
  constructor
  · intro a b ha hb
    exact rewardDescSign a b ha hb
  · intro a b d c hra hrd hrb hrc hlt
    have hsa : rewardDescScore a = (d : Rat) * 2 := by
      simp [rewardDescScore, amountVal, hra, hrd]
    have hsb : rewardDescScore b = (c : Rat) := by
      simp [rewardDescScore, amountVal, hrb, hrc]
    have hlt2 : c < d * 2 := by omega
    have hQ : (c : Rat) < (d : Rat) * 2 := by exact_mod_cast hlt2
    have hcmp : cmpCards ⟨SortKey.reward, Direction.desc⟩ a b < 0 := by
      show rewardCompare Direction.desc a b < 0
      unfold rewardCompare
      rw [hsa, hsb, if_pos hQ.ne']
      exact sub_neg.mpr hQ
    refine ⟨hcmp, ?_⟩
    have hba : ¬ cmpCards ⟨SortKey.reward, Direction.desc⟩ b a ≤ 0 := by
      show ¬ rewardCompare Direction.desc b a ≤ 0
      unfold rewardCompare
      rw [hsa, hsb, if_pos hQ.ne]
      exact not_le.mpr (sub_pos.mpr hQ)
    show sortByCmp (cmpCards ⟨SortKey.reward, Direction.desc⟩) [b, a] = [a, b]
    simp only [sortByCmp, insertSorted]
    rw [if_neg hba]

/-- Claim C2 witness: the comparator/claim-chain agreement and the
amended consequence, instantiated on the spec's Cups/12 and Diamonds/20
example, where Diamonds/20 ranks first. -/
theorem spec_C2_witness :
    ratSign (cmpCards ⟨SortKey.reward, Direction.desc⟩ exC12 exD20)
        = rewardDescClaimOrd exC12 exD20
      ∧ cmpCards ⟨SortKey.reward, Direction.desc⟩ exD20 exC12 < 0
      ∧ sortCards ⟨SortKey.reward, Direction.desc⟩ [exC12, exD20] = [exD20, exC12] := by
  refine ⟨spec_C2.1 exC12 exD20 (Or.inl rfl) (Or.inr rfl), ?_, ?_⟩
  · exact (spec_C2.2 exD20 exC12 20 12 rfl rfl rfl rfl (by decide)).1
  · exact (spec_C2.2 exD20 exC12 20 12 rfl rfl rfl rfl (by decide)).2

/-- Claim C2 counterexample: a Diamonds record of amount 1 (score 2) does
NOT precede a Cups record of amount 12 (score 12) under the descending
reward sort, refuting "for every pair ... any non-negative amounts". -/
theorem spec_C2_counterexample :
    exD1.reward = some "Diamonds" ∧ exD1.rewardAmount = some 1
      ∧ exC12.reward = some "Cups" ∧ exC12.rewardAmount = some 12
      ∧ sortCards ⟨SortKey.reward, Direction.desc⟩ [exD1, exC12] = [exC12, exD1] := by
  decide

/-- Claim C3, amended: for every sort key other than rarity, reward AND
gender, the comparator compares the two records' field values directly
(first element of a tag-set, strings case-insensitively, direction
flipping the sign) with the original position as final ascending
tie-break; the gender key instead compares the bespoke gender rank
(Male 0, tag-set 1, Female 2, Non-binary 3, Inanimate 4, absent or other
99) with the direction applied, then original position. -/
theorem spec_C3 :
    (∀ (dir : Direction) (k : SortKey) (a b : Card),
        k ≠ SortKey.rarity → k ≠ SortKey.reward → k ≠ SortKey.gender →
        ratSign (cmpCards ⟨k, dir⟩ a b) = genericClaimOrd dir k a b)
      ∧ (∀ (dir : Direction) (a b : Card),
        ratSign (cmpCards ⟨SortKey.gender, dir⟩ a b) = genderRankOrd dir a b) := by
  constructor
  · intro dir k a b h1 h2 h3
    cases k with
    | rarity => exact absurd rfl h1
    | reward => exact absurd rfl h2
    | gender => exact absurd rfl h3
    | cardName => exact genericSign dir SortKey.cardName a b
    | character => exact genericSign dir SortKey.character a b
    | volume => exact genericSign dir SortKey.volume a b
    | book => exact genericSign dir SortKey.book a b
  · intro dir a b
    exact genderSign dir a b

/-- Claim C3 witness: the generic characterisation applied to the
cardName key and the gender characterisation, on concrete records. -/
theorem spec_C3_witness :
    ratSign (cmpCards ⟨SortKey.cardName, Direction.asc⟩ exF exM)
        = genericClaimOrd Direction.asc SortKey.cardName exF exM
      ∧ ratSign (cmpCards ⟨SortKey.gender, Direction.asc⟩ exF exM)
        = genderRankOrd Direction.asc exF exM :=
  ⟨spec_C3.1 Direction.asc SortKey.cardName exF exM (by decide) (by decide) (by decide),
    spec_C3.2 Direction.asc exF exM⟩

/-- Claim C3 counterexample: under the gender key ascending, a Female
record (rank 2) sorts AFTER a Male record (rank 0), while the claimed
direct case-insensitive value comparison ("female" < "male") would put
Female first; so the claim fails for the gender key. -/
theorem spec_C3_counterexample :
    ratSign (cmpCards ⟨SortKey.gender, Direction.asc⟩ exF exM) = Ordering.gt
      ∧ ratSign (genericCompare Direction.asc SortKey.gender exF exM) = Ordering.lt
      ∧ sortCards ⟨SortKey.gender, Direction.asc⟩ [exF, exM] = [exM, exF] := by
  decide

/-- Claim C4: for every record list and every criteria combination, the
filter output is a subsequence of the input (hence preserves relative
order), and filtering is idempotent. -/
theorem spec_C4 (cr : Criteria) (cards : List Card) :
    (getFilteredCards cr cards).Sublist cards
      ∧ getFilteredCards cr (getFilteredCards cr cards) = getFilteredCards cr cards := by
  constructor
  · exact List.filter_sublist cards
  · simp [getFilteredCards, List.filter_filter]

/-- Claim C5: with a non-empty (after trimming) free-text term, a record
passes the search criterion exactly when the term occurs
case-insensitively as a substring of `cardName` or of `character`; an
empty or whitespace-only term matches every record; and with only the
search criterion active the filter keeps exactly the records passing the
search. -/
theorem spec_C5 (input : String) (card : Card) :
    (jsTrim input ≠ "" →
        searchPasses input card
          = (ciOccurs (jsTrim input) card.cardName
              || ciOccurs (jsTrim input) card.character))
      ∧ (jsTrim input = "" → searchPasses input card = true)
      ∧ ((∀ c ∈ input.data, c.isWhitespace = true) → searchPasses input card = true)
      ∧ (∀ cards : List Card,
          getFilteredCards ⟨input, "", "", "", "", ""⟩ cards
            = cards.filter (fun c => searchPasses input c)) := by
  refine ⟨?_, ?_, ?_, ?_⟩
  · intro h
    unfold searchPasses ciOccurs
    rw [if_neg (fun he => h ((lowerStr_empty_iff _).mp he))]
  · intro h
    unfold searchPasses
    rw [if_pos (by rw [h]; rfl)]
  · intro h
    unfold searchPasses
    rw [if_pos (by rw [jsTrim_all_ws input h]; rfl)]
  · intro cards
    unfold getFilteredCards
    apply List.filter_congr
    intro c _
    simp [cardMatches, matchesBook, matchesGender]

/-- Claim C5 witness: "LUNA" matches the record with character "Luna",
"luna" does not match a record containing it in neither field, and a
whitespace-only term matches. -/
theorem spec_C5_witness :
    searchPasses "LUNA" exLuna = true
      ∧ searchPasses "luna" exSol = false
      ∧ searchPasses "   " exLuna = true := by
  refine ⟨?_, ?_, ?_⟩
  · rw [(spec_C5 "LUNA" exLuna).1 (by decide)]
    decide
  · rw [(spec_C5 "luna" exSol).1 (by decide)]
    decide
  · exact (spec_C5 "   " exLuna).2.2.1 (by decide)

/-- Claim C6: with a non-empty criterion, a record passes the book filter
exactly when its book value contains the criterion (equality for a single
tag, membership for a tag-set, never for an absent book); the gender
filter has the same contains-semantics; and `book = ["A","B"]` matches
"B" but not "C". -/
theorem spec_C6 :
    (∀ (card : Card) (sel : String), sel ≠ "" →
        matchesBook card sel = tagFieldHas card.book sel
          ∧ matchesGender card sel = tagFieldHas card.gender sel
          ∧ (card.book = TagField.absent → matchesBook card sel = false))
      ∧ matchesBook exAB "B" = true ∧ matchesBook exAB "C" = false := by
  refine ⟨?_, by decide, by decide⟩
  intro card sel h
  refine ⟨?_, ?_, ?_⟩
  · unfold matchesBook tagFieldHas
    rw [if_neg h]
    cases hb : card.book with
    | absent => rfl
    | tag b =>
        show (if b = "" then false else b == sel) = (b == sel)
        by_cases hb0 : b = ""
        · rw [if_pos hb0, hb0]
          exact (beq_eq_false_iff_ne.mpr (Ne.symm h)).symm
        · rw [if_neg hb0]
    | tags l => rfl
  · unfold matchesGender tagFieldHas
    rw [if_neg h]
    cases hg : card.gender with
    | absent => rfl
    | tag g =>
        show (if g = "" then false else g == sel) = (g == sel)
        by_cases hg0 : g = ""
        · rw [if_pos hg0, hg0]
          exact (beq_eq_false_iff_ne.mpr (Ne.symm h)).symm
        · rw [if_neg hg0]
    | tags l => rfl
  · intro hb
    unfold matchesBook
    rw [if_neg h, hb]

/-- Claim C6 witness: the contains-characterisation instantiated on the
set-valued book record and on a single-tag gender record. -/
theorem spec_C6_witness :
    matchesBook exAB "B" = tagFieldHas exAB.book "B"
      ∧ matchesGender exF "Female" = tagFieldHas exF.gender "Female" :=
  ⟨(spec_C6.1 exAB "B" (by decide)).1, (spec_C6.1 exF "Female" (by decide)).2.1⟩

/-- Claim C7: for every view and cursor position within it, advancing is
clamped at the bounds: advance(-1) at position 0 and advance(+1) at the
last position are no-ops (no wraparound, no error), and either advance
always leaves the cursor within the view's bounds. -/
theorem spec_C7 (l : List Card) (i : Int) (h0 : 0 ≤ i) (h1 : i < (l.length : Int)) :
    (i = 0 → showPrevCard ⟨l, i⟩ = (⟨l, i⟩, Option.none))
      ∧ (i = (l.length : Int) - 1 → showNextCard ⟨l, i⟩ = (⟨l, i⟩, Option.none))
      ∧ (0 ≤ (showPrevCard ⟨l, i⟩).1.currentIndex
          ∧ (showPrevCard ⟨l, i⟩).1.currentIndex < (l.length : Int))
      ∧ (0 ≤ (showNextCard ⟨l, i⟩).1.currentIndex
          ∧ (showNextCard ⟨l, i⟩).1.currentIndex < (l.length : Int)) := by
  refine ⟨?_, ?_, ?_, ?_⟩
  · intro he
    exact showPrev_noop ⟨l, i⟩ (le_of_eq he)
  · intro he
    exact showNext_noop_last ⟨l, i⟩ (le_of_eq he.symm)
  · by_cases hp : i ≤ 0
    · rw [showPrev_noop ⟨l, i⟩ hp]
      exact ⟨h0, h1⟩
    · rw [showPrev_fst_move ⟨l, i⟩ hp]
      constructor <;> simp <;> omega
  · by_cases hl : (l.length : Int) - 1 ≤ i
    · rw [showNext_noop_last ⟨l, i⟩ hl]
      exact ⟨h0, h1⟩
    · rw [showNext_fst_move ⟨l, i⟩ (not_lt.mpr h0) hl]
      constructor <;> simp <;> omega

/-- Claim C7 witness: on a three-element view, advance(-1) at index 0 and
advance(+1) at index 2 are no-ops. -/
theorem spec_C7_witness :
    showPrevCard ⟨ex3, 0⟩ = (⟨ex3, 0⟩, Option.none)
      ∧ showNextCard ⟨ex3, 2⟩ = (⟨ex3, 2⟩, Option.none) :=
  ⟨(spec_C7 ex3 0 (by decide) (by decide)).1 rfl,
    (spec_C7 ex3 2 (by decide) (by decide)).2.1 (by decide)⟩

/-- Claim C8, amended: the previous-affordance flag is enabled exactly
when 0 < cursor, but the next-affordance flag is enabled exactly when
0 ≤ cursor AND cursor < length - 1 (the unset cursor -1 disables it even
on a non-empty view); each flag is enabled exactly when the corresponding
advance actually moves the cursor. -/
theorem spec_C8 (st : NavState) :
    (prevEnabled st = true ↔ 0 < st.currentIndex)
      ∧ (nextEnabled st = true ↔
          0 ≤ st.currentIndex
            ∧ st.currentIndex < (st.currentList.length : Int) - 1)
      ∧ (prevEnabled st = false → (showPrevCard st).1 = st)
      ∧ (nextEnabled st = false → (showNextCard st).1 = st)
      ∧ (prevEnabled st = true →
          (showPrevCard st).1.currentIndex = st.currentIndex - 1)
      ∧ (nextEnabled st = true →
          (showNextCard st).1.currentIndex = st.currentIndex + 1) := by
  refine ⟨?_, ?_, ?_, ?_, ?_, ?_⟩
  · simp [prevEnabled]
  · simp [nextEnabled]
  · intro h
    have hn : ¬ 0 < st.currentIndex := by simpa [prevEnabled] using h
    rw [showPrev_noop st (not_lt.mp hn)]
  · intro h
    have hn : ¬ (0 ≤ st.currentIndex
        ∧ st.currentIndex < (st.currentList.length : Int) - 1) := by
      simpa [nextEnabled] using h
    by_cases hneg : st.currentIndex < 0
    · rw [showNext_noop_neg st hneg]
    · have hge : 0 ≤ st.currentIndex := not_lt.mp hneg
      have hlast : (st.currentList.length : Int) - 1 ≤ st.currentIndex := by
        rcases not_and_or.mp hn with hc | hc
        · exact absurd hge hc
        · exact not_lt.mp hc
      rw [showNext_noop_last st hlast]
  · intro h
    have hpos : 0 < st.currentIndex := by simpa [prevEnabled] using h
    rw [showPrev_fst_move st (not_le.mpr hpos)]
  · intro h
    have hand : 0 ≤ st.currentIndex
        ∧ st.currentIndex < (st.currentList.length : Int) - 1 := by
      simpa [nextEnabled] using h
    rw [showNext_fst_move st (not_lt.mpr hand.1) (not_le.mpr hand.2)]

/-- Claim C8 witness: on a three-element view at cursor 1 both flags are
live and both advances move by one; at the last cursor the next advance
does not move. -/
theorem spec_C8_witness :
    (showPrevCard ⟨ex3, 1⟩).1.currentIndex = 0
      ∧ (showNextCard ⟨ex3, 1⟩).1.currentIndex = 2
      ∧ (showNextCard ⟨ex3, 2⟩).1 = ⟨ex3, 2⟩ := by
  refine ⟨?_, ?_, ?_⟩
  · exact (spec_C8 ⟨ex3, 1⟩).2.2.2.2.1 (by decide)
  · exact ((spec_C8 ⟨ex3, 1⟩).2.2.2.2.2 (by decide)).trans (by decide)
  · exact (spec_C8 ⟨ex3, 2⟩).2.2.2.1 (by decide)

/-- Claim C8 counterexample: with the unset cursor -1 on a non-empty
three-element view, the claimed condition "cursor < length - 1" holds,
yet the next-affordance flag is disabled (the code also requires
cursor ≥ 0). -/
theorem spec_C8_counterexample :
    nextEnabled ⟨ex3, -1⟩ = false ∧ ((-1 : Int) < (ex3.length : Int) - 1) := by
  decide

/-- Claim C9: sorting never mutates its input: `sortCards` returns a
permutation of the input list (built afresh), and `render` replaces the
view wholesale while leaving the record collection, sort spec and cursor
of the state exactly as they were. -/
theorem spec_C9 :
    (∀ (spec : SortSpec) (l : List Card), (sortCards spec l).Perm l)
      ∧ (∀ (cr : Criteria) (st : AppState),
          (render cr st).cards = st.cards
            ∧ (render cr st).currentSort = st.currentSort
            ∧ (render cr st).currentIndex = st.currentIndex
            ∧ (render cr st).currentList
                = sortCards st.currentSort (getFilteredCards cr st.cards)) :=
  ⟨fun _ l => sortByCmp_perm _ l, fun _ _ => ⟨rfl, rfl, rfl, rfl⟩⟩

/-- Claim C10: with the unset cursor (-1), both advances are no-ops: the
state is unchanged (cursor stays -1) and no record is displayed, for
every view including non-empty ones. -/
theorem spec_C10 (l : List Card) :
    showPrevCard ⟨l, -1⟩ = (⟨l, -1⟩, Option.none)
      ∧ showNextCard ⟨l, -1⟩ = (⟨l, -1⟩, Option.none) :=
  ⟨showPrev_noop ⟨l, -1⟩ (show (-1 : Int) ≤ 0 by decide),
    showNext_noop_neg ⟨l, -1⟩ (show (-1 : Int) < 0 by decide)⟩

end RcCardArchive
